import Mathlib

/-!
Shallow embedding of the Painel_Integracao data-access layer.

The Python sources under `src/` are translated definition by definition:

* `database.py` — `DatabaseSettings`/`Database`/`ConnectionHandle`/`conectar`
  become `Painel.DatabaseState`, `Painel.ConnectionHandle`, `Painel.conectar`.
  Python attribute lookup on the handle is modelled explicitly
  (`Painel.handleGetattr`) because several callers use the handle
  imperatively (`conn.cursor(...)`, `conn.close()`).
* `utils.py` — `UsuarioRepository.buscar_por_usuario` and
  `AuthService.authenticate` become `Painel.buscar_por_usuario` and
  `Painel.authenticate`; `bcrypt.checkpw` is an explicit function parameter.
* `controle_integracao/integracao_db.py` — `garantir_empresa`,
  `listar_tarefas` and the `_exec` statement runner become
  `Painel.garantir_empresa`, `Painel.listar_tarefas`, `Painel.exec_write`.
* `controle_integracao/dao.py` — the `db_cursor` context manager and
  `TarefasDAO.concluir_tarefa` become `Painel.db_cursor_write` and
  `Painel.concluir_tarefa`.
* `services/produtos_service.py` — `ProdutoRepository.registrar_acesso`,
  `ProdutoRepository.atualizar_status` and the `ProdutoService` wrappers
  become `Painel.repo_registrar_acesso`, `Painel.service_registrar_acesso`,
  `Painel.repo_atualizar_status`, `Painel.service_atualizar_status`.

Database tables are lists of rows; `NOW()` is an explicit `now : Nat`
parameter; `uuid.uuid4()` is a fresh identifier drawn from a counter; a SQL
statement that can fail at the server is a function `α → Except String α`.
-/

namespace Painel

/-- A fixed-size connection pool: the identifiers of the currently available
pooled connections (`mysql.connector.pooling.MySQLConnectionPool`). -/
structure Pool where
  conns : List Nat
deriving DecidableEq, Repr

/-- `database.py` `ConnectionHandle`: `_pool` (possibly absent) and the
lazily acquired `_conn`. -/
structure ConnectionHandle where
  pool : Option Pool
  conn : Option Nat
deriving DecidableEq, Repr

/-- The attributes an instance of `ConnectionHandle` actually has, read off
the class body of `database.py` lines 123-144: the two instance attributes
set in `__init__` and the two methods.  The class defines no `cursor`,
`close`, `commit` or `rollback` method and no `__getattr__`. -/
def connectionHandleAttrs : List String :=
  ["_pool", "_conn", "__init__", "__enter__", "__exit__"]

/-- Python attribute lookup on a `ConnectionHandle` instance: a name that is
not among the instance or class attributes raises `AttributeError` (there is
no `__getattr__` fallback in the class). -/
def handleGetattr (name : String) : Except String Unit :=
  if name ∈ connectionHandleAttrs then Except.ok ()
  else Except.error ("AttributeError: ConnectionHandle has no attribute " ++ name)

/-- `ConnectionHandle.__enter__` (`database.py` lines 130-135): if no
connection is held yet, fail fast when the pool is absent, otherwise pull
one connection out of the pool. -/
def ConnectionHandle.enter (h : ConnectionHandle) :
    Except String (Nat × ConnectionHandle) :=
  match h.conn with
  | some c => Except.ok (c, h)
  | none =>
    match h.pool with
    | none => Except.error "Pool de conexões não inicializado."
    | some p =>
      match p.conns with
      | [] => Except.error "PoolError: pool exhausted"
      | c :: rest =>
        Except.ok (c, { pool := some { conns := rest }, conn := some c })

/-- `ConnectionHandle.__exit__` (`database.py` lines 137-144): close the held
connection (returning it to the pool) and forget it; runs on success and on
failure alike. -/
def ConnectionHandle.exitClose (h : ConnectionHandle) : ConnectionHandle :=
  match h.conn with
  | none => h
  | some c =>
    { pool := (h.pool).map (fun p => { conns := p.conns ++ [c] }), conn := none }

/-- The `Database` dataclass state: the pool reference (absent after a failed
construction) and whether the construction failure was logged. -/
structure DatabaseState where
  pool : Option Pool
  loggedPoolFailure : Bool
deriving DecidableEq, Repr

/-- `Database._initialise_pool` (`database.py` lines 157-173): pool
construction either succeeds or raises `mysql.connector.Error`; on failure
the exception is logged and the pool reference becomes `None`. -/
def initialise_pool (result : Except String Pool) : DatabaseState :=
  match result with
  | Except.ok p => { pool := some p, loggedPoolFailure := false }
  | Except.error _ => { pool := none, loggedPoolFailure := true }

/-- `Database.connection`: wrap the current pool reference in a fresh handle. -/
def DatabaseState.connection (db : DatabaseState) : ConnectionHandle :=
  { pool := db.pool, conn := none }

/-- `database.py` `conectar()`: returns `DATABASE.connection()`. -/
def conectar (db : DatabaseState) : ConnectionHandle :=
  db.connection

/-- One acquisition attempt: build a handle with `conectar` and enter it. -/
def acquireAttempt (db : DatabaseState) : Except String (Nat × ConnectionHandle) :=
  (conectar db).enter

/-- The database step of `TelaLogin.validar_login` (`login.py` lines
143-150): `conn = conectar()` followed by the attribute access
`conn.cursor`, performed on the handle itself (no `with` block). -/
def validarLoginDbStep (db : DatabaseState) : Except String Unit :=
  let handle := conectar db
  match handleGetattr "cursor" with
  | Except.ok _ => Except.ok ()
  | Except.error e =>
    match handle.conn with
    | _ => Except.error e

/-- A row of the `usuarios` table as selected by
`UsuarioRepository.buscar_por_usuario`. -/
structure Usuario where
  id : Nat
  usuario : String
  nome : String
  tipo : String
  senha_hash : String
deriving DecidableEq, Repr

/-- `UsuarioRepository.buscar_por_usuario` (`utils.py` lines 51-63):
`SELECT ... FROM usuarios WHERE usuario = %s` with `fetchone`. -/
def buscar_por_usuario (tbl : List Usuario) (username : String) : Option Usuario :=
  tbl.find? (fun u => u.usuario == username)

/-- `AuthService.authenticate` (`utils.py` lines 78-97).  `cpw` models
`bcrypt.checkpw`; the access-log side effect is exception-swallowed and does
not influence the returned value, so it is omitted here. -/
def authenticate (cpw : String → String → Bool) (tbl : List Usuario)
    (username password : String) : Except String (Option Usuario) :=
  if username = "" ∨ password = "" then
    Except.error "Usuário e senha devem ser preenchidos."
  else
    match buscar_por_usuario tbl username with
    | none => Except.ok none
    | some u =>
      if u.senha_hash = "" then Except.ok none
      else if cpw password u.senha_hash then Except.ok (some u)
      else Except.ok none

/-- A concrete stand-in for `bcrypt.checkpw` used in witnesses: the stored
hash of password `p` is the string `bcrypt:` followed by `p`. -/
def cpwDemo (password hash : String) : Bool :=
  hash == ("bcrypt:" ++ password)

/-- A concrete `usuarios` table used in witnesses. -/
def usuariosDemo : List Usuario :=
  [{ id := 1, usuario := "alice", nome := "Alice", tipo := "user",
     senha_hash := "bcrypt:secret" }]

/-- A row of `empresas_integracao` as used by `integracao_db.py`. -/
structure Empresa where
  id : String
  empresa : String
  cod : String
  cod_athenas : String
  top10 : Nat
  prioridade_empresa : String
  criado_em : Nat
deriving DecidableEq, Repr

/-- The `empresas_integracao` table plus the fresh-identifier source that
models `uuid.uuid4()`. -/
structure EmpresasState where
  rows : List Empresa
  proxUuid : Nat
deriving DecidableEq, Repr

/-- `uuid.uuid4()` modelled as a fresh identifier drawn from a counter. -/
def freshUuid (n : Nat) : String :=
  "uuid-" ++ toString n

/-- The WHERE clause `empresa = %s AND cod = %s` on a company row. -/
def empresaPred (nome cod : String) (e : Empresa) : Bool :=
  e.empresa == nome && e.cod == cod

/-- `get_empresa_por_nome_cod` (`integracao_db.py` lines 52-58):
`SELECT ... WHERE empresa = %s AND cod = %s LIMIT 1`. -/
def get_empresa_por_nome_cod (st : EmpresasState) (nome cod : String) : Option Empresa :=
  st.rows.find? (empresaPred nome cod)

/-- `garantir_empresa` (`integracao_db.py` lines 61-85): if a row with the
same (empresa, cod) exists, overwrite `cod_athenas`, `prioridade_empresa`
and `top10` on it and return its id; otherwise insert a fresh row under a
newly generated identifier. -/
def garantir_empresa (st : EmpresasState) (nome cod codAthenas prioridade : String)
    (top10flag : Nat) (now : Nat) : String × EmpresasState :=
  match get_empresa_por_nome_cod st nome cod with
  | some e =>
    (e.id,
     { st with rows := st.rows.map (fun r =>
         if r.id == e.id then
           { r with cod_athenas := codAthenas, prioridade_empresa := prioridade,
                    top10 := top10flag }
         else r) })
  | none =>
    let newId := freshUuid st.proxUuid
    (newId,
     { rows := st.rows ++
         [{ id := newId, empresa := nome, cod := cod, cod_athenas := codAthenas,
            top10 := top10flag, prioridade_empresa := prioridade, criado_em := now }],
       proxUuid := st.proxUuid + 1 })

/-- Number of `empresas_integracao` rows carrying a given (empresa, cod) pair. -/
def countPair (st : EmpresasState) (nome cod : String) : Nat :=
  (st.rows.filter (empresaPred nome cod)).length

/-- A row of `tarefas_integracao`. -/
structure Tarefa where
  id : Nat
  empresa_id : String
  mes : String
  tipo : String
  p1 : String
  p2 : String
  prioridade_tarefa : String
  status : String
  atualizado_em : Nat
deriving DecidableEq, Repr

/-- The column list selected by `listar_tarefas` (`integracao_db.py` lines
96-113): task columns joined with the owning company's columns. -/
structure TarefaView where
  tarefa_id : Nat
  empresa_id : String
  empresa : String
  cod : String
  cod_athenas : String
  top10 : Nat
  mes : String
  tipo : String
  p1 : String
  p2 : String
  prioridade : String
  status : String
  atualizado_em : Nat
deriving DecidableEq, Repr

/-- Build the selected view of one task joined with one company row. -/
def mkTarefaView (e : Empresa) (t : Tarefa) : TarefaView :=
  { tarefa_id := t.id, empresa_id := t.empresa_id, empresa := e.empresa,
    cod := e.cod, cod_athenas := e.cod_athenas, top10 := e.top10,
    mes := t.mes, tipo := t.tipo, p1 := t.p1, p2 := t.p2,
    prioridade := t.prioridade_tarefa, status := t.status,
    atualizado_em := t.atualizado_em }

/-- The inner join `tarefas_integracao t JOIN empresas_integracao e ON
e.id = t.empresa_id`: every matching (task, company) pair. -/
def joinTarefas (es : List Empresa) (ts : List Tarefa) : List TarefaView :=
  ts.flatMap (fun t => (es.filter (fun e => e.id == t.empresa_id)).map (fun e => mkTarefaView e t))

/-- Does `hay` begin with `needle`? -/
def charsBeginWith : List Char → List Char → Bool
  | [], _ => true
  | _ :: _, [] => false
  | n :: ns, h :: hs => n == h && charsBeginWith ns hs

/-- Does `hay` contain `needle` as a contiguous run? -/
def charsContain (needle : List Char) : List Char → Bool
  | [] => charsBeginWith needle []
  | c :: hs => charsBeginWith needle (c :: hs) || charsContain needle hs

/-- SQL `LIKE CONCAT(CHAR(37), needle, CHAR(37))`: substring containment, as
produced by the `e.empresa LIKE %s` clause with parameter wrapped in
wildcard marks. -/
def sqlLikeContains (hay needle : String) : Bool :=
  charsContain needle.data hay.data

/-- The WHERE clause accumulated by `listar_tarefas` (`integracao_db.py`
lines 115-128).  A Python-falsy filter value (absent or empty string) adds
no clause. -/
def tarefaMatches (fEmpresa fMes fStatus fTipo : Option String) (r : TarefaView) : Bool :=
  (match fEmpresa with
   | none => true
   | some s => s == "" || sqlLikeContains r.empresa s) &&
  (match fMes with
   | none => true
   | some m => m == "" || r.mes == m) &&
  (match fStatus with
   | none => true
   | some s => s == "" || r.status == s) &&
  (match fTipo with
   | none => true
   | some tp => tp == "" || r.tipo == tp)

/-- The comparator of the clause `ORDER BY e.empresa ASC, t.mes DESC,
t.tipo ASC` (`integracao_db.py` line 130). -/
def tarefaViewLe (a b : TarefaView) : Bool :=
  if a.empresa = b.empresa then
    (if a.mes = b.mes then decide (a.tipo ≤ b.tipo) else decide (b.mes < a.mes))
  else decide (a.empresa < b.empresa)

/-- `listar_tarefas` (`integracao_db.py` lines 92-132): join, apply the
optional filters, sort by the ORDER BY key. -/
def listar_tarefas (es : List Empresa) (ts : List Tarefa)
    (fEmpresa fMes fStatus fTipo : Option String) : List TarefaView :=
  ((joinTarefas es ts).filter (tarefaMatches fEmpresa fMes fStatus fTipo)).mergeSort tarefaViewLe

/-- `TarefasDAO.concluir_tarefa` (`dao.py` lines 121-129): `UPDATE
tarefas_integracao SET status = 'Concluída', atualizado_em = NOW() WHERE
empresa_id = %s AND tipo = %s`, committed by `db_cursor(commit=True)`. -/
def concluir_tarefa (ts : List Tarefa) (empresaId tipo : String) (now : Nat) : List Tarefa :=
  ts.map (fun t =>
    if t.empresa_id == empresaId && t.tipo == tipo then
      { t with status := "Concluída", atualizado_em := now }
    else t)

/-- A row of the `produtos` table. -/
structure ProdutoRow where
  id : Nat
  nome : String
  status : String
  ultimo_acesso : Option Nat
deriving DecidableEq, Repr

/-- A row of the `acessos` access-log table. -/
structure AcessoRow where
  usuario : String
  produto_id : Nat
  momento : Nat
deriving DecidableEq, Repr

/-- The slice of the database touched by `ProdutoRepository`. -/
structure PainelDB where
  produtos : List ProdutoRow
  acessos : List AcessoRow
deriving DecidableEq, Repr

/-- `ProdutoRepository.registrar_acesso` (`produtos_service.py` lines
122-133): stamp the product's `ultimo_acesso` with `NOW()`, append one
`acessos` row, commit. -/
def repo_registrar_acesso (db : PainelDB) (produtoId : Nat) (usuario : String)
    (now : Nat) : PainelDB :=
  { produtos := db.produtos.map (fun r =>
      if r.id == produtoId then { r with ultimo_acesso := some now } else r),
    acessos := db.acessos ++ [{ usuario := usuario, produto_id := produtoId, momento := now }] }

/-- `ProdutoService.registrar_acesso` (`produtos_service.py` lines 202-207):
guard the arguments, then delegate to the repository. -/
def service_registrar_acesso (db : PainelDB) (produtoId : Nat) (usuario : String)
    (now : Nat) : Except String PainelDB :=
  if usuario = "" then Except.error "usuario deve ser informado"
  else Except.ok (repo_registrar_acesso db produtoId usuario now)

/-- Python's default whitespace set for `str.strip`. -/
def pyWhitespace (c : Char) : Bool :=
  c == ' ' || c == '\t' || c == '\n' || c == '\r' || c == '\x0b' || c == '\x0c'

/-- Drop leading whitespace characters. -/
def dropLeadingWs : List Char → List Char
  | [] => []
  | c :: cs => if pyWhitespace c then dropLeadingWs cs else c :: cs

/-- Python `str.strip()` with no argument: remove whitespace at both ends. -/
def pyStrip (s : String) : String :=
  ⟨(dropLeadingWs (dropLeadingWs s.data.reverse).reverse)⟩

/-- The three standard values of `ProdutoStatus.ordenados()`. -/
def produtoStatusPadrao : List String :=
  ["Em Desenvolvimento", "Atualizando", "Pronto"]

/-- `ProdutoRepository.atualizar_status` (`produtos_service.py` lines
148-158): `UPDATE produtos SET status = %s WHERE id = %s`, commit. -/
def repo_atualizar_status (db : PainelDB) (produtoId : Nat) (status : String) : PainelDB :=
  { db with produtos := db.produtos.map (fun r =>
      if r.id == produtoId then { r with status := status } else r) }

/-- `ProdutoService.atualizar_status` (`produtos_service.py` lines 214-221):
strip the status, substitute the default when the result is empty, log a
warning when it is non-standard, and write it regardless.  The boolean
component records whether the warning was logged. -/
def service_atualizar_status (db : PainelDB) (produtoId : Nat) (novoStatus : String) :
    PainelDB × Bool :=
  let statusLimpo := if pyStrip novoStatus = "" then "Em Desenvolvimento" else pyStrip novoStatus
  let warned := decide (statusLimpo ∉ produtoStatusPadrao)
  (repo_atualizar_status db produtoId statusLimpo, warned)

/-- A concrete `PainelDB` used in witnesses. -/
def painelDbDemo : PainelDB :=
  { produtos := [{ id := 1, nome := "Manuais", status := "Pronto", ultimo_acesso := none },
                 { id := 2, nome := "Macro da Folha", status := "Pronto", ultimo_acesso := some 5 }],
    acessos := [{ usuario := "bob", produto_id := 2, momento := 5 }] }

/-- The observable outcome of running one write operation: the final
committed state, whether a rollback was issued, whether the failure was
logged, and whether cursor and connection were closed/released. -/
structure WriteOutcome (α : Type) where
  result : Except String Unit
  db : α
  rolledBack : Bool
  logged : Bool
  cursorClosed : Bool
  connClosed : Bool
deriving Repr

/-- A write routed through `db_cursor` (`dao.py` lines 9-23): execute the
statement on a working copy; on success commit when requested; on failure
roll back, log, re-raise; close cursor and connection on every path. -/
def db_cursor_write (stmt : α → Except String α) (commitFlag : Bool) (db : α) :
    WriteOutcome α :=
  match stmt db with
  | Except.ok working =>
    { result := Except.ok (), db := if commitFlag then working else db,
      rolledBack := false, logged := false, cursorClosed := true, connClosed := true }
  | Except.error e =>
    { result := Except.error e, db := db,
      rolledBack := true, logged := true, cursorClosed := true, connClosed := true }

/-- A write routed through `_exec` (`integracao_db.py` lines 8-36): execute,
fetch, commit, close — with no try/except at all.  When the statement
raises, the exception propagates before `conn.commit()`, `cur.close()` and
`conn.close()` are reached: nothing is rolled back, logged or released, and
the uncommitted work is never committed. -/
def exec_write (stmt : α → Except String α) (db : α) : WriteOutcome α :=
  match stmt db with
  | Except.ok working =>
    { result := Except.ok (), db := working,
      rolledBack := false, logged := false, cursorClosed := true, connClosed := true }
  | Except.error e =>
    { result := Except.error e, db := db,
      rolledBack := false, logged := false, cursorClosed := false, connClosed := false }

/-- A statement that fails at the server, as an `INSERT INTO
tarefas_integracao` hitting a foreign-key violation would. -/
def failingInsert : List Tarefa → Except String (List Tarefa) :=
  fun _ => Except.error "foreign key constraint fails"

/-- The kind of a data-manipulation statement. -/
inductive DmlKind
  | ins
  | upd
  | del
  | insOnDupUpd
  | ddl
deriving DecidableEq, Repr

/-- One SQL statement of the program: where it appears, which table it
touches, and its kind. -/
structure DmlStmt where
  source : String
  table : String
  kind : DmlKind
deriving DecidableEq, Repr

/-- Every data-manipulation statement of the program, transcribed from the
sources (all INSERT/UPDATE/DELETE/ALTER statements under `src/`). -/
def programDmlStmts : List DmlStmt :=
  [{ source := "painel_admin.py:197", table := "produtos", kind := DmlKind.ins },
   { source := "painel_admin.py:301", table := "produtos", kind := DmlKind.upd },
   { source := "painel_admin.py:336", table := "produtos", kind := DmlKind.upd },
   { source := "painel_admin.py:337", table := "acessos", kind := DmlKind.ins },
   { source := "importar_integracao.py:50", table := "empresas_integracao", kind := DmlKind.ins },
   { source := "importar_integracao.py:80", table := "tarefas_integracao", kind := DmlKind.ins },
   { source := "controle_integracao/integracao_db.py:71", table := "empresas_integracao", kind := DmlKind.upd },
   { source := "controle_integracao/integracao_db.py:81", table := "empresas_integracao", kind := DmlKind.ins },
   { source := "controle_integracao/integracao_db.py:137", table := "tarefas_integracao", kind := DmlKind.ins },
   { source := "controle_integracao/integracao_db.py:168", table := "tarefas_integracao", kind := DmlKind.upd },
   { source := "controle_integracao/integracao_db.py:182", table := "tarefas_integracao_log", kind := DmlKind.ins },
   { source := "controle_integracao/dao.py:90", table := "tarefas_integracao", kind := DmlKind.ins },
   { source := "controle_integracao/dao.py:104", table := "tarefas_integracao", kind := DmlKind.upd },
   { source := "controle_integracao/dao.py:118", table := "tarefas_integracao", kind := DmlKind.del },
   { source := "controle_integracao/dao.py:125", table := "tarefas_integracao", kind := DmlKind.upd },
   { source := "controle_integracao/dao.py:136", table := "tarefas_integracao", kind := DmlKind.ins },
   { source := "limpar_produtos.py:20", table := "produtos", kind := DmlKind.del },
   { source := "limpar_produtos.py:39", table := "produtos", kind := DmlKind.ins },
   { source := "limpar_produtos.py:48", table := "produtos", kind := DmlKind.ddl },
   { source := "services/produtos_service.py:126", table := "produtos", kind := DmlKind.upd },
   { source := "services/produtos_service.py:128", table := "acessos", kind := DmlKind.ins },
   { source := "services/produtos_service.py:139", table := "produtos", kind := DmlKind.upd },
   { source := "services/produtos_service.py:141", table := "acessos", kind := DmlKind.ins },
   { source := "services/produtos_service.py:153", table := "produtos", kind := DmlKind.upd },
   { source := "services/produtos_service.py:170", table := "produtos", kind := DmlKind.insOnDupUpd },
   { source := "manuais.py:92", table := "historico_manuais", kind := DmlKind.insOnDupUpd },
   { source := "manuais.py:128", table := "historico_manuais", kind := DmlKind.del },
   { source := "importar_manuais.py:28", table := "manuais_conteudo", kind := DmlKind.del },
   { source := "importar_manuais.py:43", table := "manuais_conteudo", kind := DmlKind.ins },
   { source := "painel_administracao.py:145", table := "usuarios", kind := DmlKind.ins },
   { source := "painel_administracao.py:199", table := "usuarios", kind := DmlKind.upd },
   { source := "painel_administracao.py:203", table := "usuarios", kind := DmlKind.upd },
   { source := "painel_administracao.py:234", table := "usuarios", kind := DmlKind.del },
   { source := "painel_administracao.py:288", table := "produtos", kind := DmlKind.ins },
   { source := "painel_administracao.py:339", table := "produtos", kind := DmlKind.upd },
   { source := "painel_user.py:139", table := "produtos", kind := DmlKind.ins },
   { source := "painel_user.py:211", table := "produtos", kind := DmlKind.upd },
   { source := "painel_user.py:213", table := "acessos", kind := DmlKind.ins }]

/-- Concrete tasks used in witnesses. -/
def tarefasDemo : List Tarefa :=
  [{ id := 1, empresa_id := "e1", mes := "2025-01", tipo := "GPS", p1 := "Ana", p2 := "Bia",
     prioridade_tarefa := "Alta", status := "Pendente", atualizado_em := 3 },
   { id := 2, empresa_id := "e1", mes := "2025-01", tipo := "LFS", p1 := "Ana", p2 := "Bia",
     prioridade_tarefa := "Média", status := "Pendente", atualizado_em := 3 },
   { id := 3, empresa_id := "e2", mes := "2024-12", tipo := "GPS", p1 := "Caio", p2 := "Dan",
     prioridade_tarefa := "Baixa", status := "Pendente", atualizado_em := 2 }]

/-- Concrete companies used in witnesses. -/
def empresasDemo : List Empresa :=
  [{ id := "e1", empresa := "Acme", cod := "001", cod_athenas := "A1", top10 := 1,
     prioridade_empresa := "Alta", criado_em := 0 },
   { id := "e2", empresa := "Beta", cod := "002", cod_athenas := "B2", top10 := 0,
     prioridade_empresa := "Média", criado_em := 0 }]

/-- Claim C1 (code evaluation at the failing input): the database step of
`TelaLogin.validar_login` — `conn = conectar()` followed by the imperative
attribute access `conn.cursor(dictionary=True)` — raises `AttributeError`
for every database state, because `ConnectionHandle` defines no `cursor`
method and no `__getattr__` forwarding; the explicit `conn.close()` of the
same code path would fail the same way. -/
theorem validar_login_cursor_attribute_error (db : DatabaseState) :
    validarLoginDbStep db =
      Except.error "AttributeError: ConnectionHandle has no attribute cursor" ∧
    handleGetattr "close" =
      Except.error "AttributeError: ConnectionHandle has no attribute close" := by
  constructor <;> rfl

/-- Claim C8: when pool construction fails, the pool reference becomes
absent and the failure is logged; every acquisition attempt on a handle
built from that state fails fast with the descriptive error, and no handle
whose pool reference is that absent pool can ever acquire a connection
(no retry or reconnection exists). -/
theorem pool_failure_fails_fast (e : String) (h : ConnectionHandle)
    (hp : h.pool = (initialise_pool (Except.error e)).pool) :
    (initialise_pool (Except.error e)).pool = none ∧
    (initialise_pool (Except.error e)).loggedPoolFailure = true ∧
    acquireAttempt (initialise_pool (Except.error e)) =
      Except.error "Pool de conexões não inicializado." ∧
    (h.conn = none → h.enter = Except.error "Pool de conexões não inicializado.") := by
  refine ⟨rfl, rfl, rfl, fun hc => ?_⟩
  simp only [initialise_pool] at hp
  cases h with
  | mk pool conn =>
    simp only at hp hc
    subst hp; subst hc
    rfl

/-- Witness for `pool_failure_fails_fast` at a concrete failure. -/
theorem pool_failure_fails_fast_witness :
    (initialise_pool (Except.error "Access denied")).pool = none ∧
    (initialise_pool (Except.error "Access denied")).loggedPoolFailure = true ∧
    acquireAttempt (initialise_pool (Except.error "Access denied")) =
      Except.error "Pool de conexões não inicializado." ∧
    (({ pool := none, conn := none } : ConnectionHandle).conn = none →
      ({ pool := none, conn := none } : ConnectionHandle).enter =
        Except.error "Pool de conexões não inicializado.") :=
  pool_failure_fails_fast "Access denied" { pool := none, conn := none } rfl

/-- Claim C9: every data-manipulation statement in the program that touches
the `acessos` table is an INSERT; no statement updates or deletes an
`acessos` row. -/
theorem acessos_append_only :
    ∀ s ∈ programDmlStmts, s.table = "acessos" → s.kind = DmlKind.ins := by
  decide

/-- Witness for `acessos_append_only` at the `painel_user.py` insert. -/
theorem acessos_append_only_witness :
    ({ source := "painel_user.py:213", table := "acessos", kind := DmlKind.ins } : DmlStmt).kind
      = DmlKind.ins :=
  acessos_append_only
    { source := "painel_user.py:213", table := "acessos", kind := DmlKind.ins }
    (by decide) rfl

/-- Claim C4 (counterexample): a write routed through `_exec` that fails
during execution performs no rollback, logs nothing and never releases the
cursor or connection — the exception simply propagates. -/
theorem exec_write_failure_counterexample :
    (exec_write failingInsert ([] : List Tarefa)).rolledBack = false ∧
    (exec_write failingInsert ([] : List Tarefa)).logged = false ∧
    (exec_write failingInsert ([] : List Tarefa)).connClosed = false ∧
    (exec_write failingInsert ([] : List Tarefa)).result =
      Except.error "foreign key constraint fails" :=
  ⟨rfl, rfl, rfl, rfl⟩

/-- Claim C4 (amended): when the statement of a write raises, the committed
database state is unchanged under both runners; a write routed through
`db_cursor` additionally rolls back, logs and re-raises with cursor and
connection closed, while a write routed through `_exec` re-raises without
rollback, logging or release. -/
theorem write_failure_rollback_spec (stmt : α → Except String α) (db : α) (e : String)
    (hfail : stmt db = Except.error e) :
    db_cursor_write stmt true db =
      { result := Except.error e, db := db, rolledBack := true, logged := true,
        cursorClosed := true, connClosed := true } ∧
    exec_write stmt db =
      { result := Except.error e, db := db, rolledBack := false, logged := false,
        cursorClosed := false, connClosed := false } := by
  unfold db_cursor_write exec_write
  rw [hfail]
  exact ⟨rfl, rfl⟩

/-- Witness for `write_failure_rollback_spec` at a concrete failing insert. -/
theorem write_failure_rollback_spec_witness :
    db_cursor_write failingInsert true ([] : List Tarefa) =
      { result := Except.error "foreign key constraint fails", db := [],
        rolledBack := true, logged := true, cursorClosed := true, connClosed := true } ∧
    exec_write failingInsert ([] : List Tarefa) =
      { result := Except.error "foreign key constraint fails", db := [],
        rolledBack := false, logged := false, cursorClosed := false, connClosed := false } :=
  write_failure_rollback_spec failingInsert [] "foreign key constraint fails" rfl

/-- Claim C2 (counterexample): the pair ("alice", "") has a password that
does not match the stored hash, yet `authenticate` raises `ValueError`
instead of returning an empty result. -/
theorem authenticate_empty_password_raises :
    cpwDemo "" "bcrypt:secret" = false ∧
    authenticate cpwDemo usuariosDemo "alice" "" =
      Except.error "Usuário e senha devem ser preenchidos." := by
  constructor
  · decide
  · rfl

/-- Claim C2 (amended): for pairs with both components non-empty,
`authenticate` returns the matching user exactly when the stored hash is
present and matches, and an empty result otherwise (unknown user, missing
hash, wrong password) without raising; pairs with an empty username or
password raise `ValueError` instead. -/
theorem authenticate_spec (cpw : String → String → Bool) (tbl : List Usuario)
    (u p : String) :
    ((u = "" ∨ p = "") →
      authenticate cpw tbl u p = Except.error "Usuário e senha devem ser preenchidos.") ∧
    (u ≠ "" → p ≠ "" →
      ((buscar_por_usuario tbl u = none → authenticate cpw tbl u p = Except.ok none) ∧
       (∀ urec, buscar_por_usuario tbl u = some urec →
         authenticate cpw tbl u p =
           Except.ok (if urec.senha_hash ≠ "" ∧ cpw p urec.senha_hash = true
             then some urec else none)))) := by
  constructor
  · intro h
    rw [authenticate, if_pos h]
  · intro hu hp
    have hcond : ¬(u = "" ∨ p = "") := by
      intro h
      cases h with
      | inl h1 => exact hu h1
      | inr h2 => exact hp h2
    constructor
    · intro hnone
      rw [authenticate, if_neg hcond, hnone]
    · intro urec hrec
      rw [authenticate, if_neg hcond, hrec]
      by_cases hh : urec.senha_hash = ""
      · simp [hh]
      · by_cases hc : cpw p urec.senha_hash
        · simp [hh, hc]
        · simp [hh, hc]

/-- Witness for `authenticate_spec` at a matching concrete pair. -/
theorem authenticate_spec_witness :
    authenticate cpwDemo usuariosDemo "alice" "secret" =
      Except.ok (if ("bcrypt:secret" : String) ≠ "" ∧ cpwDemo "secret" "bcrypt:secret" = true
        then some { id := 1, usuario := "alice", nome := "Alice", tipo := "user",
                    senha_hash := "bcrypt:secret" }
        else none) :=
  ((authenticate_spec cpwDemo usuariosDemo "alice" "secret").2 (by decide) (by decide)).2
    { id := 1, usuario := "alice", nome := "Alice", tipo := "user",
      senha_hash := "bcrypt:secret" }
    (by decide)

/-- Claim C5: with a non-empty user name, `registrar_acesso` delegates to
the repository write, which appends exactly one `acessos` row (leaving the
existing rows as they were), keeps the `produtos` row count, stamps the
targeted product's `ultimo_acesso` with a timestamp at least the call time,
and leaves every other product row untouched. -/
theorem registrar_acesso_spec (db : PainelDB) (pid : Nat) (u : String) (now : Nat)
    (hu : u ≠ "") :
    service_registrar_acesso db pid u now = Except.ok (repo_registrar_acesso db pid u now) ∧
    (repo_registrar_acesso db pid u now).acessos.length = db.acessos.length + 1 ∧
    (repo_registrar_acesso db pid u now).acessos =
      db.acessos ++ [{ usuario := u, produto_id := pid, momento := now }] ∧
    (repo_registrar_acesso db pid u now).produtos.length = db.produtos.length ∧
    (∀ r', r' ∈ (repo_registrar_acesso db pid u now).produtos → r'.id = pid →
      ∃ t, r'.ultimo_acesso = some t ∧ now ≤ t) ∧
    (∀ r', r' ∈ db.produtos → r'.id ≠ pid →
      r' ∈ (repo_registrar_acesso db pid u now).produtos) := by
  refine ⟨?_, ?_, rfl, ?_, ?_, ?_⟩
  · rw [service_registrar_acesso, if_neg hu]
  · simp [repo_registrar_acesso]
  · simp [repo_registrar_acesso]
  · intro r' hr hid
    simp only [repo_registrar_acesso, List.mem_map] at hr
    obtain ⟨a, _, hfa⟩ := hr
    by_cases hcase : a.id = pid
    · rw [if_pos (by simpa using hcase)] at hfa
      exact ⟨now, by rw [← hfa], le_refl now⟩
    · rw [if_neg (by simpa using hcase)] at hfa
      rw [← hfa] at hid
      exact absurd hid hcase
  · intro r' hr hne
    simp only [repo_registrar_acesso, List.mem_map]
    exact ⟨r', hr, by rw [if_neg (by simpa using hne)]⟩

/-- Witness for `registrar_acesso_spec` at a concrete access. -/
theorem registrar_acesso_spec_witness :
    service_registrar_acesso painelDbDemo 2 "alice" 7 =
      Except.ok (repo_registrar_acesso painelDbDemo 2 "alice" 7) ∧
    (repo_registrar_acesso painelDbDemo 2 "alice" 7).acessos.length =
      painelDbDemo.acessos.length + 1 :=
  ⟨(registrar_acesso_spec painelDbDemo 2 "alice" 7 (by decide)).1,
   (registrar_acesso_spec painelDbDemo 2 "alice" 7 (by decide)).2.1⟩

/-- Claim C7: completing the tasks of one (empresa_id, tipo) pair rewrites
exactly the matching rows to status "Concluída" with the new timestamp,
keeping every other field of those rows, and leaves every non-matching row
(other types of the same company, other companies) entirely unchanged. -/
theorem concluir_tarefa_frame (ts : List Tarefa) (eid tp : String) (now : Nat) :
    (concluir_tarefa ts eid tp now).length = ts.length ∧
    ∀ i : Fin ts.length, ∀ hi : i.val < (concluir_tarefa ts eid tp now).length,
      ((ts.get i).empresa_id = eid ∧ (ts.get i).tipo = tp →
        (concluir_tarefa ts eid tp now).get ⟨i.val, hi⟩ =
          { ts.get i with status := "Concluída", atualizado_em := now }) ∧
      (¬((ts.get i).empresa_id = eid ∧ (ts.get i).tipo = tp) →
        (concluir_tarefa ts eid tp now).get ⟨i.val, hi⟩ = ts.get i) := by
  refine ⟨List.length_map ts _, fun i hi => ?_⟩
  have hget : (concluir_tarefa ts eid tp now).get ⟨i.val, hi⟩ =
      (fun t => if t.empresa_id == eid && t.tipo == tp then
        { t with status := "Concluída", atualizado_em := now } else t) (ts.get i) := by
    simp [concluir_tarefa, List.get_eq_getElem, List.getElem_map]
  constructor
  · intro hmatch
    rw [hget]
    simp only
    rw [if_pos (show ((ts.get i).empresa_id == eid && (ts.get i).tipo == tp) = true by
      rw [hmatch.1, hmatch.2]; simp)]
  · intro hnot
    rw [hget]
    simp only
    rw [if_neg]
    intro hcond
    exact hnot (by simpa [Bool.and_eq_true, beq_iff_eq] using hcond)

/-- Witness for `concluir_tarefa_frame`: completing ("e1", "GPS") rewrites
the matching first row and leaves the same company's "LFS" row unchanged. -/
theorem concluir_tarefa_frame_witness :
    (concluir_tarefa tarefasDemo "e1" "GPS" 9).length = tarefasDemo.length ∧
    (concluir_tarefa tarefasDemo "e1" "GPS" 9).get ⟨0, by decide⟩ =
      { tarefasDemo.get ⟨0, by decide⟩ with status := "Concluída", atualizado_em := 9 } ∧
    (concluir_tarefa tarefasDemo "e1" "GPS" 9).get ⟨1, by decide⟩ =
      tarefasDemo.get ⟨1, by decide⟩ := by
  have h := concluir_tarefa_frame tarefasDemo "e1" "GPS" 9
  refine ⟨h.1, ?_, ?_⟩
  · exact (h.2 ⟨0, by decide⟩ (by decide)).1 ⟨by decide, by decide⟩
  · exact (h.2 ⟨1, by decide⟩ (by decide)).2 (by decide)

/-- Claim C10 (counterexample): a non-empty status carrying surrounding
whitespace is not written unchanged — updating product 1 with "Pronto "
writes the stripped value "Pronto". -/
theorem atualizar_status_not_unchanged_counterexample :
    ((service_atualizar_status painelDbDemo 1 "Pronto ").1.produtos.head?).map ProdutoRow.status
      = some "Pronto" ∧ ("Pronto" : String) ≠ "Pronto " := by
  constructor
  · rfl
  · decide

/-- Claim C10 (amended): `atualizar_status` never writes an empty status:
the given status is stripped of surrounding whitespace, an empty or
whitespace-only status is replaced by "Em Desenvolvimento", and any other
status is written in stripped form — with a warning logged exactly when the
written value is outside the three standard values, the write proceeding
regardless; rows of other products are untouched. -/
theorem atualizar_status_spec (db : PainelDB) (pid : Nat) (s : String) :
    (if pyStrip s = "" then "Em Desenvolvimento" else pyStrip s) ≠ "" ∧
    (service_atualizar_status db pid s).1.produtos.length = db.produtos.length ∧
    (∀ r', r' ∈ (service_atualizar_status db pid s).1.produtos → r'.id = pid →
      r'.status = (if pyStrip s = "" then "Em Desenvolvimento" else pyStrip s)) ∧
    (∀ r', r' ∈ db.produtos → r'.id ≠ pid →
      r' ∈ (service_atualizar_status db pid s).1.produtos) ∧
    ((service_atualizar_status db pid s).2 = true ↔
      (if pyStrip s = "" then "Em Desenvolvimento" else pyStrip s) ∉ produtoStatusPadrao) := by
  refine ⟨?_, ?_, ?_, ?_, ?_⟩
  · by_cases h : pyStrip s = ""
    · simp [h]
    · simp [h]
  · simp [service_atualizar_status, repo_atualizar_status]
  · intro r' hr hid
    simp only [service_atualizar_status, repo_atualizar_status, List.mem_map] at hr
    obtain ⟨a, _, hfa⟩ := hr
    by_cases hcase : a.id = pid
    · rw [if_pos (by simpa using hcase)] at hfa
      rw [← hfa]
    · rw [if_neg (by simpa using hcase)] at hfa
      rw [← hfa] at hid
      exact absurd hid hcase
  · intro r' hr hne
    simp only [service_atualizar_status, repo_atualizar_status, List.mem_map]
    exact ⟨r', hr, by rw [if_neg (by simpa using hne)]⟩
  · simp [service_atualizar_status]

/-- Witness for `atualizar_status_spec`: updating product 1 of the demo
database with " Atualizando " writes the stripped standard value. -/
theorem atualizar_status_spec_witness :
    ({ id := 1, nome := "Manuais", status := "Atualizando", ultimo_acesso := none } : ProdutoRow).status
      = (if pyStrip " Atualizando " = "" then "Em Desenvolvimento" else pyStrip " Atualizando ") :=
  (atualizar_status_spec painelDbDemo 1 " Atualizando ").2.2.1
    { id := 1, nome := "Manuais", status := "Atualizando", ultimo_acesso := none }
    (by decide) rfl

/-- Updating rows through a function that preserves a predicate does not
change how many rows satisfy the predicate. -/
theorem filter_length_map_of_pred_eq {α : Type} (g : α → α) (p : α → Bool)
    (hpg : ∀ r, p (g r) = p r) (l : List α) :
    ((l.map g).filter p).length = (l.filter p).length := by
  induction l with
  | nil => rfl
  | cons a l ih =>
    rw [List.map_cons, List.filter_cons, List.filter_cons, hpg a]
    cases hpa : p a
    · simpa [hpa] using ih
    · simpa [hpa] using ih

/-- Updating rows through a predicate-preserving function commutes with
`find?`. -/
theorem find?_map_of_pred_eq {α : Type} (g : α → α) (p : α → Bool)
    (hpg : ∀ r, p (g r) = p r) (l : List α) :
    (l.map g).find? p = (l.find? p).map g := by
  induction l with
  | nil => rfl
  | cons a l ih =>
    rw [List.map_cons]
    cases hpa : p a
    · rw [List.find?_cons_of_neg _ (by simp [hpg a, hpa]),
        List.find?_cons_of_neg _ (by simp [hpa])]
      exact ih
    · rw [List.find?_cons_of_pos _ (by simp [hpg a, hpa]),
        List.find?_cons_of_pos _ (by simp [hpa])]
      rfl

/-- `find?` skips over a block in which nothing matches. -/
theorem find?_append_of_none {α : Type} (p : α → Bool) (l1 l2 : List α)
    (h : l1.find? p = none) : (l1 ++ l2).find? p = l2.find? p := by
  induction l1 with
  | nil => rfl
  | cons a l ih =>
    cases hpa : p a
    · rw [List.cons_append, List.find?_cons_of_neg _ (by simp [hpa])]
      apply ih
      rw [List.find?_cons_of_neg _ (by simp [hpa])] at h
      exact h
    · rw [List.find?_cons_of_pos _ (by simp [hpa])] at h
      cases h

/-- A successful `find?` means at least one row passes the filter. -/
theorem length_filter_pos_of_find?_some {α : Type} (p : α → Bool) (l : List α) (x : α)
    (h : l.find? p = some x) : 0 < (l.filter p).length := by
  have hx : p x = true := List.find?_some h
  have hmem : x ∈ l := List.mem_of_find?_eq_some h
  exact List.length_pos_of_mem (List.mem_filter.mpr ⟨hmem, hx⟩)

/-- A failed `find?` means the filter keeps nothing. -/
theorem filter_eq_nil_of_find?_none {α : Type} (p : α → Bool) (l : List α)
    (h : l.find? p = none) : l.filter p = [] := by
  induction l with
  | nil => rfl
  | cons a l ih =>
    cases hpa : p a
    · rw [List.find?_cons_of_neg _ (by simp [hpa])] at h
      rw [List.filter_cons, if_neg (by simp [hpa])]
      exact ih h
    · rw [List.find?_cons_of_pos _ (by simp [hpa])] at h
      cases h

/-- Claim C3: `garantir_empresa` is idempotent on (nome, cod): starting from
a state holding at most one row for the pair, two successive calls with the
same (nome, cod) return the same identifier and leave exactly one
`empresas_integracao` row for the pair.  When a row already exists the
existing id is returned with no row added, the found row reappears with its
`cod_athenas`, `prioridade_empresa` and `top10` overwritten by the call's
arguments (all its other fields kept), every post-state row with that id
carries the argument values in those three fields, and rows with other ids
are unchanged; otherwise a freshly generated identifier is returned and
exactly one row is inserted, whose fields are the call's arguments, with
all previous rows kept. -/
theorem garantir_empresa_idempotent (st : EmpresasState) (nome cod a1 p1 a2 p2 : String)
    (t1 n1 t2 n2 : Nat) (hcount : countPair st nome cod ≤ 1) :
    (garantir_empresa st nome cod a1 p1 t1 n1).1 =
      (garantir_empresa (garantir_empresa st nome cod a1 p1 t1 n1).2
        nome cod a2 p2 t2 n2).1 ∧
    countPair (garantir_empresa (garantir_empresa st nome cod a1 p1 t1 n1).2
      nome cod a2 p2 t2 n2).2 nome cod = 1 ∧
    (∀ e, get_empresa_por_nome_cod st nome cod = some e →
      (garantir_empresa st nome cod a1 p1 t1 n1).1 = e.id ∧
      (garantir_empresa st nome cod a1 p1 t1 n1).2.rows.length = st.rows.length ∧
      { e with cod_athenas := a1, prioridade_empresa := p1, top10 := t1 } ∈
        (garantir_empresa st nome cod a1 p1 t1 n1).2.rows ∧
      (∀ r', r' ∈ (garantir_empresa st nome cod a1 p1 t1 n1).2.rows → r'.id = e.id →
        r'.cod_athenas = a1 ∧ r'.prioridade_empresa = p1 ∧ r'.top10 = t1) ∧
      (∀ r, r ∈ st.rows → r.id ≠ e.id →
        r ∈ (garantir_empresa st nome cod a1 p1 t1 n1).2.rows)) ∧
    (get_empresa_por_nome_cod st nome cod = none →
      (garantir_empresa st nome cod a1 p1 t1 n1).1 = freshUuid st.proxUuid ∧
      (garantir_empresa st nome cod a1 p1 t1 n1).2.rows.length = st.rows.length + 1 ∧
      { id := freshUuid st.proxUuid, empresa := nome, cod := cod, cod_athenas := a1,
        top10 := t1, prioridade_empresa := p1, criado_em := n1 } ∈
        (garantir_empresa st nome cod a1 p1 t1 n1).2.rows ∧
      (∀ r, r ∈ st.rows → r ∈ (garantir_empresa st nome cod a1 p1 t1 n1).2.rows)) := by
  have hpgen : ∀ (x ca pe : String) (tf : Nat) (r : Empresa),
      empresaPred nome cod (if r.id == x then
        { r with cod_athenas := ca, prioridade_empresa := pe, top10 := tf } else r) =
      empresaPred nome cod r := by
    intro x ca pe tf r
    cases hc : (r.id == x) <;> simp [empresaPred, hc]
  cases hfind : get_empresa_por_nome_cod st nome cod with
  | some e =>
    have hfind0 : st.rows.find? (empresaPred nome cod) = some e := hfind
    have hg1 : garantir_empresa st nome cod a1 p1 t1 n1 =
        (e.id, { st with rows := st.rows.map (fun r => if r.id == e.id then
          { r with cod_athenas := a1, prioridade_empresa := p1, top10 := t1 } else r) }) := by
      simp only [garantir_empresa, hfind]
    have hfind1 : get_empresa_por_nome_cod
        { st with rows := st.rows.map (fun r => if r.id == e.id then
          { r with cod_athenas := a1, prioridade_empresa := p1, top10 := t1 } else r) }
        nome cod =
        some { e with cod_athenas := a1, prioridade_empresa := p1, top10 := t1 } := by
      show (st.rows.map _).find? (empresaPred nome cod) = _
      rw [find?_map_of_pred_eq _ _ (hpgen e.id a1 p1 t1), hfind0]
      simp
    have hg2 : garantir_empresa (garantir_empresa st nome cod a1 p1 t1 n1).2
        nome cod a2 p2 t2 n2 =
        (e.id,
         { st with
           rows :=
             List.map
               (fun r => if r.id == e.id then
                 { r with cod_athenas := a2, prioridade_empresa := p2, top10 := t2 } else r)
               (List.map
                 (fun r => if r.id == e.id then
                   { r with cod_athenas := a1, prioridade_empresa := p1, top10 := t1 } else r)
                 st.rows) }) := by
      rw [hg1]
      simp only [garantir_empresa, hfind1]
    refine ⟨?_, ?_, ?_, ?_⟩
    · rw [hg2, hg1]
    · rw [hg2]
      show ((((st.rows.map _).map _)).filter (empresaPred nome cod)).length = 1
      rw [filter_length_map_of_pred_eq _ _ (hpgen _ a2 p2 t2),
        filter_length_map_of_pred_eq _ _ (hpgen e.id a1 p1 t1)]
      have hpos := length_filter_pos_of_find?_some (empresaPred nome cod) st.rows e hfind0
      have hle : (st.rows.filter (empresaPred nome cod)).length ≤ 1 := hcount
      omega
    · intro e' he'
      have heq : e = e' := Option.some.inj he'
      rw [← heq]
      refine ⟨by rw [hg1], by rw [hg1]; simp, ?_, ?_, ?_⟩
      · rw [hg1]
        exact List.mem_map.mpr ⟨e, List.mem_of_find?_eq_some hfind0, by simp⟩
      · intro r' hr' hid
        simp only [hg1, List.mem_map] at hr'
        obtain ⟨a, _, hfa⟩ := hr'
        by_cases hcase : a.id = e.id
        · rw [if_pos (by simpa using hcase)] at hfa
          rw [← hfa]
          exact ⟨rfl, rfl, rfl⟩
        · rw [if_neg (by simpa using hcase)] at hfa
          rw [← hfa] at hid
          exact absurd hid hcase
      · intro r hr hne
        rw [hg1]
        exact List.mem_map.mpr ⟨r, hr, by rw [if_neg (by simpa using hne)]⟩
    · intro hnone
      exact Option.noConfusion hnone
  | none =>
    have hfind0 : st.rows.find? (empresaPred nome cod) = none := hfind
    have hcount0 : (st.rows.filter (empresaPred nome cod)).length = 0 := by
      rw [filter_eq_nil_of_find?_none _ _ hfind0]
      rfl
    have hg1 : garantir_empresa st nome cod a1 p1 t1 n1 =
        (freshUuid st.proxUuid,
         { rows := st.rows ++
             [{ id := freshUuid st.proxUuid, empresa := nome, cod := cod, cod_athenas := a1,
                top10 := t1, prioridade_empresa := p1, criado_em := n1 }],
           proxUuid := st.proxUuid + 1 }) := by
      simp only [garantir_empresa, hfind]
    have hprednew : empresaPred nome cod
        { id := freshUuid st.proxUuid, empresa := nome, cod := cod, cod_athenas := a1,
          top10 := t1, prioridade_empresa := p1, criado_em := n1 } = true := by
      simp [empresaPred]
    have hfind1 : get_empresa_por_nome_cod
        { rows := st.rows ++
            [{ id := freshUuid st.proxUuid, empresa := nome, cod := cod, cod_athenas := a1,
               top10 := t1, prioridade_empresa := p1, criado_em := n1 }],
          proxUuid := st.proxUuid + 1 } nome cod =
        some { id := freshUuid st.proxUuid, empresa := nome, cod := cod, cod_athenas := a1,
               top10 := t1, prioridade_empresa := p1, criado_em := n1 } := by
      show (st.rows ++ _).find? (empresaPred nome cod) = _
      rw [find?_append_of_none _ _ _ hfind0, List.find?_cons_of_pos _ hprednew]
    have hg2 : garantir_empresa (garantir_empresa st nome cod a1 p1 t1 n1).2
        nome cod a2 p2 t2 n2 =
        (freshUuid st.proxUuid,
         { rows :=
             List.map
              (fun r => if r.id == freshUuid st.proxUuid then
                { r with cod_athenas := a2, prioridade_empresa := p2, top10 := t2 } else r)
              (st.rows ++
                [{ id := freshUuid st.proxUuid, empresa := nome, cod := cod, cod_athenas := a1,
                   top10 := t1, prioridade_empresa := p1, criado_em := n1 }]),
           proxUuid := st.proxUuid + 1 }) := by
      rw [hg1]
      simp only [garantir_empresa, hfind1]
    refine ⟨?_, ?_, ?_, ?_⟩
    · rw [hg2, hg1]
    · rw [hg2]
      show (((st.rows ++ _).map _).filter (empresaPred nome cod)).length = 1
      rw [filter_length_map_of_pred_eq _ _ (hpgen _ a2 p2 t2), List.filter_append]
      simp [hcount0, filter_eq_nil_of_find?_none _ _ hfind0, hprednew]
    · intro e' he'
      exact Option.noConfusion he'
    · intro _
      refine ⟨by rw [hg1], by rw [hg1]; simp, ?_, ?_⟩
      · rw [hg1]
        exact List.mem_append_right _ (by simp)
      · intro r hr
        rw [hg1]
        exact List.mem_append_left _ hr

/-- Witness for `garantir_empresa_idempotent`: starting from an empty table,
two calls for ("Acme", "001") agree on the identifier and leave one row; and
on a table already holding the pair, the found row reappears with its three
mutable fields overwritten by the call's arguments. -/
theorem garantir_empresa_idempotent_witness :
    (garantir_empresa { rows := [], proxUuid := 0 } "Acme" "001" "A9" "Alta" 1 10).1 =
      (garantir_empresa
        (garantir_empresa { rows := [], proxUuid := 0 } "Acme" "001" "A9" "Alta" 1 10).2
        "Acme" "001" "B7" "Baixa" 0 11).1 ∧
    countPair (garantir_empresa
      (garantir_empresa { rows := [], proxUuid := 0 } "Acme" "001" "A9" "Alta" 1 10).2
      "Acme" "001" "B7" "Baixa" 0 11).2 "Acme" "001" = 1 ∧
    ({ id := "e9", empresa := "Acme", cod := "001", cod_athenas := "A9", top10 := 1,
       prioridade_empresa := "Alta", criado_em := 5 } : Empresa) ∈
      (garantir_empresa
        { rows := [{ id := "e9", empresa := "Acme", cod := "001", cod_athenas := "OLD",
                     top10 := 0, prioridade_empresa := "Média", criado_em := 5 }],
          proxUuid := 0 } "Acme" "001" "A9" "Alta" 1 10).2.rows := by
  have h := garantir_empresa_idempotent { rows := [], proxUuid := 0 }
    "Acme" "001" "A9" "Alta" "B7" "Baixa" 1 10 0 11 (by decide)
  have h2 := garantir_empresa_idempotent
    { rows := [{ id := "e9", empresa := "Acme", cod := "001", cod_athenas := "OLD",
                 top10 := 0, prioridade_empresa := "Média", criado_em := 5 }], proxUuid := 0 }
    "Acme" "001" "A9" "Alta" "B7" "Baixa" 1 10 0 11 (by decide)
  refine ⟨h.1, h.2.1, ?_⟩
  exact (h2.2.2.1
    { id := "e9", empresa := "Acme", cod := "001", cod_athenas := "OLD",
      top10 := 0, prioridade_empresa := "Média", criado_em := 5 } (by decide)).2.2.1

/-- The ORDER BY comparator of `listar_tarefas` is transitive. -/
theorem tarefaViewLe_trans (a b c : TarefaView)
    (hab : tarefaViewLe a b = true) (hbc : tarefaViewLe b c = true) :
    tarefaViewLe a c = true := by
  unfold tarefaViewLe at hab hbc ⊢
  by_cases h1 : a.empresa = b.empresa <;> by_cases h2 : b.empresa = c.empresa
  · rw [if_pos h1] at hab
    rw [if_pos h2] at hbc
    rw [if_pos (h1.trans h2)]
    by_cases m1 : a.mes = b.mes <;> by_cases m2 : b.mes = c.mes
    · rw [if_pos m1] at hab
      rw [if_pos m2] at hbc
      rw [if_pos (m1.trans m2)]
      simp only [decide_eq_true_eq] at hab hbc ⊢
      exact le_trans hab hbc
    · rw [if_pos m1] at hab
      rw [if_neg m2] at hbc
      rw [if_neg (by rw [m1]; exact m2), m1]
      exact hbc
    · rw [if_neg m1] at hab
      rw [if_pos m2] at hbc
      rw [if_neg (by rw [← m2]; exact m1), ← m2]
      exact hab
    · rw [if_neg m1] at hab
      rw [if_neg m2] at hbc
      simp only [decide_eq_true_eq] at hab hbc
      have hca : c.mes < a.mes := lt_trans hbc hab
      rw [if_neg (fun hac => absurd hac.symm (ne_of_lt hca))]
      simp only [decide_eq_true_eq]
      exact hca
  · rw [if_neg h2] at hbc
    simp only [decide_eq_true_eq] at hbc
    rw [if_neg (by rw [h1]; exact h2), h1]
    simp only [decide_eq_true_eq]
    exact hbc
  · rw [if_neg h1] at hab
    simp only [decide_eq_true_eq] at hab
    rw [if_neg (by rw [← h2]; exact h1), ← h2]
    simp only [decide_eq_true_eq]
    exact hab
  · rw [if_neg h1] at hab
    rw [if_neg h2] at hbc
    simp only [decide_eq_true_eq] at hab hbc
    have hac : a.empresa < c.empresa := lt_trans hab hbc
    rw [if_neg (ne_of_lt hac)]
    simp only [decide_eq_true_eq]
    exact hac

/-- The ORDER BY comparator of `listar_tarefas` is total. -/
theorem tarefaViewLe_total (a b : TarefaView) :
    tarefaViewLe a b || tarefaViewLe b a := by
  unfold tarefaViewLe
  by_cases h1 : a.empresa = b.empresa
  · rw [if_pos h1, if_pos h1.symm]
    by_cases m1 : a.mes = b.mes
    · rw [if_pos m1, if_pos m1.symm]
      rcases le_total a.tipo b.tipo with h | h
      · simp [h]
      · simp [h]
    · rw [if_neg m1, if_neg (fun h => m1 h.symm)]
      rcases lt_or_gt_of_ne m1 with h | h
      · simp [h]
      · simp [h]
  · rw [if_neg h1, if_neg (fun h => h1 h.symm)]
    rcases lt_or_gt_of_ne h1 with h | h
    · simp [h]
    · simp [h]

/-- Under the foreign-key invariant (each task's company id matches exactly
one company row), the join keeps exactly one row per task. -/
theorem joinTarefas_length (es : List Empresa) (ts : List Tarefa)
    (hfk : ∀ t ∈ ts, (es.filter (fun e => e.id == t.empresa_id)).length = 1) :
    (joinTarefas es ts).length = ts.length := by
  induction ts with
  | nil => rfl
  | cons t ts ih =>
    simp only [joinTarefas, List.flatMap_cons, List.length_append, List.length_map,
      List.length_cons]
    rw [hfk t (List.mem_cons_self t ts)]
    have ih' := ih (fun t' ht' => hfk t' (List.mem_cons_of_mem t ht'))
    simp only [joinTarefas] at ih'
    omega

/-- Claim C6: with no filters, `listar_tarefas` returns every joined task
row (all tasks, under the foreign-key invariant) sorted by company name
ascending, then month descending, then type ascending; each provided filter
(mes, status, tipo) narrows the result to the rows matching that field
exactly, and the free-text company filter narrows it to the rows whose
company name contains the text as a substring — always in the same order. -/
theorem listar_tarefas_spec (es : List Empresa) (ts : List Tarefa)
    (needle m s tp : String) :
    (∀ fE fM fS fT,
      (listar_tarefas es ts fE fM fS fT).Pairwise (fun a b => tarefaViewLe a b = true)) ∧
    (listar_tarefas es ts none none none none).Perm (joinTarefas es ts) ∧
    ((∀ t ∈ ts, (es.filter (fun e => e.id == t.empresa_id)).length = 1) →
      (listar_tarefas es ts none none none none).length = ts.length) ∧
    (m ≠ "" → (listar_tarefas es ts none (some m) none none).Perm
      ((joinTarefas es ts).filter (fun r => r.mes == m))) ∧
    (s ≠ "" → (listar_tarefas es ts none none (some s) none).Perm
      ((joinTarefas es ts).filter (fun r => r.status == s))) ∧
    (tp ≠ "" → (listar_tarefas es ts none none none (some tp)).Perm
      ((joinTarefas es ts).filter (fun r => r.tipo == tp))) ∧
    (needle ≠ "" → (listar_tarefas es ts (some needle) none none none).Perm
      ((joinTarefas es ts).filter (fun r => sqlLikeContains r.empresa needle))) := by
  have hpermAll : (listar_tarefas es ts none none none none).Perm (joinTarefas es ts) :=
    (List.mergeSort_perm ((joinTarefas es ts).filter (tarefaMatches none none none none))
      tarefaViewLe).trans
      (List.Perm.of_eq (List.filter_eq_self.mpr (fun a _ => rfl)))
  refine ⟨?_, hpermAll, ?_, ?_, ?_, ?_, ?_⟩
  · intro fE fM fS fT
    exact List.sorted_mergeSort tarefaViewLe_trans tarefaViewLe_total
      ((joinTarefas es ts).filter (tarefaMatches fE fM fS fT))
  · intro hfk
    exact hpermAll.length_eq.trans (joinTarefas_length es ts hfk)
  · intro hm
    have hm0 : (m == "") = false := beq_eq_false_iff_ne.mpr hm
    have heq : (joinTarefas es ts).filter (tarefaMatches none (some m) none none) =
        (joinTarefas es ts).filter (fun r => r.mes == m) :=
      List.filter_congr (fun a _ => by simp [tarefaMatches, hm0])
    exact (List.mergeSort_perm _ tarefaViewLe).trans (List.Perm.of_eq heq)
  · intro hs
    have hs0 : (s == "") = false := beq_eq_false_iff_ne.mpr hs
    have heq : (joinTarefas es ts).filter (tarefaMatches none none (some s) none) =
        (joinTarefas es ts).filter (fun r => r.status == s) :=
      List.filter_congr (fun a _ => by simp [tarefaMatches, hs0])
    exact (List.mergeSort_perm _ tarefaViewLe).trans (List.Perm.of_eq heq)
  · intro htp
    have htp0 : (tp == "") = false := beq_eq_false_iff_ne.mpr htp
    have heq : (joinTarefas es ts).filter (tarefaMatches none none none (some tp)) =
        (joinTarefas es ts).filter (fun r => r.tipo == tp) :=
      List.filter_congr (fun a _ => by simp [tarefaMatches, htp0])
    exact (List.mergeSort_perm _ tarefaViewLe).trans (List.Perm.of_eq heq)
  · intro hn
    have hn0 : (needle == "") = false := beq_eq_false_iff_ne.mpr hn
    have heq : (joinTarefas es ts).filter (tarefaMatches (some needle) none none none) =
        (joinTarefas es ts).filter (fun r => sqlLikeContains r.empresa needle) :=
      List.filter_congr (fun a _ => by simp [tarefaMatches, hn0])
    exact (List.mergeSort_perm _ tarefaViewLe).trans (List.Perm.of_eq heq)

/-- Witness for `listar_tarefas_spec` on the demo tables: the unfiltered
listing keeps all three tasks and the month filter keeps the matching rows. -/
theorem listar_tarefas_spec_witness :
    (listar_tarefas empresasDemo tarefasDemo none none none none).length =
      tarefasDemo.length ∧
    (listar_tarefas empresasDemo tarefasDemo none (some "2025-01") none none).Perm
      ((joinTarefas empresasDemo tarefasDemo).filter (fun r => r.mes == "2025-01")) := by
  have h := listar_tarefas_spec empresasDemo tarefasDemo "Acm" "2025-01" "Pendente" "GPS"
  exact ⟨h.2.2.1 (by decide), h.2.2.2.1 (by decide)⟩

end Painel
